import Mathlib

/-!
Verification of the core of the boid simulation (src/boid.py).

The Python core is embedded shallowly:
* geometry helpers (`wrapped_distance_sq`, the per-axis boundary update of
  `move_and_wrap` / `move_and_bounce`, the per-axis offset wrapping used by
  cohesion and separation) are generic over a linear ordered field, so the
  same definitions serve the exact rational evaluation of the spatial hash
  and the real-valued kernel;
* the spatial hash (`build_spatial_hash` and the 3x3 neighbor scan of
  `update_all_boids`) is embedded over the rationals with plain lists
  playing the role of the NumPy arrays;
* the per-agent flocking kernel (the body of the `prange` loop of
  `update_all_boids`) and one tick of `BoidSystem.update` are embedded over
  the reals, with `Real.sqrt` for `math.sqrt` and the pseudo random draws
  passed in as explicit inputs;
* the `BoidSystem` bookkeeping (`add_boids`, `update_param`,
  `_update_grid_params`) is embedded over the rationals.

Decimal literals of the source (`0.5`, `0.8`) are written as fractions
(`5 / 10`, `8 / 10`); Python float arithmetic is idealized as exact field
arithmetic throughout.
-/

/-- World constants from src/boid.py lines 10-15. -/
def WORLD_WIDTH : ℚ := 200

/-- World height constant. -/
def WORLD_HEIGHT : ℚ := 200

/-- Upper x bound of the world. -/
def GRID_X1 : ℚ := 100

/-- Upper y bound of the world. -/
def GRID_Y1 : ℚ := 100

/-- Lower x bound of the world. -/
def GRID_X2 : ℚ := -100

/-- Lower y bound of the world. -/
def GRID_Y2 : ℚ := -100

/-- Squared wrapped (toroidal) distance, from `wrapped_distance_sq`
(src/boid.py lines 18-29): each axis difference is reduced to its
magnitude and folded across the seam when it exceeds half the extent. -/
def wrapped_distance_sq {α : Type} [LinearOrderedField α]
    (x1 y1 x2 y2 world_w world_h : α) : α :=
  let dx := |x1 - x2|
  let dy := |y1 - y2|
  let dx := if dx > world_w * (5 / 10) then world_w - dx else dx
  let dy := if dy > world_h * (5 / 10) then world_h - dy else dy
  dx * dx + dy * dy

/-- Wrapping of a coordinate offset across the seam, the
`if dx > half_w: dx -= world_w elif dx < -half_w: dx += world_w` pattern
used by the cohesion and separation terms (src/boid.py lines 159-166 and
179-186). -/
def wrap_offset {α : Type} [LinearOrderedField α] (d ext : α) : α :=
  if d > ext * (5 / 10) then d - ext
  else if d < -(ext * (5 / 10)) then d + ext
  else d

/-- One axis of `move_and_wrap` (src/boid.py lines 250-264): integrate the
coordinate, then teleport a coordinate beyond a bound to the opposite
bound.  The velocity is untouched in wrap mode. -/
def move_and_wrap_axis {α : Type} [LinearOrderedField α] (p v hi lo : α) : α :=
  let q := p + v
  if q > hi then lo
  else if q < lo then hi
  else q

/-- One axis of `move_and_bounce` (src/boid.py lines 273-291): integrate
the coordinate, clamp to a crossed bound and negate the velocity
component.  Returns (new coordinate, new velocity component). -/
def move_and_bounce_axis {α : Type} [LinearOrderedField α] (p v hi lo : α) :
    α × α :=
  let q := p + v
  if q > hi then (hi, -v)
  else if q < lo then (lo, -v)
  else (q, v)

/-! ## Spatial hash (rational embedding, lists for NumPy arrays) -/

/-- Write `v` at index `i` of a list, the embedding of `arr[i] = v`; out of
range writes are dropped (never exercised on in-range data). -/
def listSet : List ℕ → ℕ → ℕ → List ℕ
  | [], _, _ => []
  | _ :: xs, 0, v => v :: xs
  | x :: xs, n + 1, v => x :: listSet xs n v

/-- Python `range(a, b)` over naturals. -/
def pyRange (a b : ℕ) : List ℕ :=
  (List.range (b - a)).map (a + ·)

/-- Cell coordinate of one axis, from src/boid.py lines 50-54: floor of
`(pos - grid_min) / cell_size`, clamped into `[0, ncells - 1]`.  (Python's
`int()` truncates toward zero, which differs from the floor only on
negative arguments; after the `max 0` clamp both agree, so the floor is
used.) -/
def cellCoord (pos gmin cs : ℚ) (ncells : ℕ) : ℕ :=
  (max 0 (min ⌊(pos - gmin) / cs⌋ ((ncells : ℤ) - 1))).toNat

/-- The spatial hash produced by `build_spatial_hash`:
per-cell start offsets, agent indices sorted by cell, cell of each agent. -/
structure SpatialHash where
  cell_starts : List ℕ
  sorted_indices : List ℕ
  boid_cells : List ℕ
  deriving Repr, DecidableEq

/-- Counting sort construction of the spatial hash, from
`build_spatial_hash` (src/boid.py lines 32-75): compute each agent's cell,
count occupancy per cell, prefix-sum the counts into start offsets, then
scatter agent indices into contiguous per-cell runs. -/
def build_spatial_hash (positions_x positions_y : List ℚ)
    (cell_size grid_x2 grid_y2 : ℚ) (num_cells_x num_cells_y : ℕ) :
    SpatialHash :=
  let n := positions_x.length
  let total_cells := num_cells_x * num_cells_y
  let boid_cells := (List.range n).map (fun i =>
    let cx := cellCoord (positions_x.getD i 0) grid_x2 cell_size num_cells_x
    let cy := cellCoord (positions_y.getD i 0) grid_y2 cell_size num_cells_y
    cy * num_cells_x + cx)
  let cell_counts := boid_cells.foldl
    (fun acc c => listSet acc c (acc.getD c 0 + 1))
    (List.replicate total_cells 0)
  let cell_starts := cell_counts.scanl (· + ·) 0
  let scatter := (List.range n).foldl
    (fun (st : List ℕ × List ℕ) i =>
      let cell := boid_cells.getD i 0
      let pos := cell_starts.getD cell 0 + st.2.getD cell 0
      (listSet st.1 pos i, listSet st.2 cell (st.2.getD cell 0 + 1)))
    (List.replicate n 0, List.replicate total_cells 0)
  ⟨cell_starts, scatter.1, boid_cells⟩

/-- The set (as a list of indices) of agents `j` that the kernel's 3x3
cell scan finds visible from agent `i`, from `update_all_boids`
(src/boid.py lines 111-149): iterate the 3x3 block of cells around `i`'s
cell with the cell coordinates wrapped modulo the grid dimensions, walk
each cell's run of `sorted_indices`, skip `i` itself, and keep `j` when
the squared wrapped distance is at most `range_of_view ^ 2`. -/
def scanNeighbors (positions_x positions_y : List ℚ) (hash : SpatialHash)
    (num_cells_x num_cells_y : ℕ) (rov_sq world_w world_h : ℚ) (i : ℕ) :
    List ℕ :=
  let cell_idx := hash.boid_cells.getD i 0
  let cell_x := cell_idx % num_cells_x
  let cell_y := cell_idx / num_cells_x
  ([-1, 0, 1] : List ℤ).flatMap (fun dcx =>
    ([-1, 0, 1] : List ℤ).flatMap (fun dcy =>
      let ncx := (((cell_x : ℤ) + dcx).emod (num_cells_x : ℤ)).toNat
      let ncy := (((cell_y : ℤ) + dcy).emod (num_cells_y : ℤ)).toNat
      let neighbor_cell := ncy * num_cells_x + ncx
      let start := hash.cell_starts.getD neighbor_cell 0
      let stop := hash.cell_starts.getD (neighbor_cell + 1) 0
      (pyRange start stop).filterMap (fun idx =>
        let j := hash.sorted_indices.getD idx 0
        if j = i then none
        else if wrapped_distance_sq (positions_x.getD i 0)
            (positions_y.getD i 0) (positions_x.getD j 0)
            (positions_y.getD j 0) world_w world_h ≤ rov_sq then some j
        else none)))

/-- Brute-force neighbor set: every other agent within wrapped distance,
the reference scan the spec compares the spatial hash against. -/
def bruteNeighbors (positions_x positions_y : List ℚ)
    (rov_sq world_w world_h : ℚ) (i : ℕ) : List ℕ :=
  (List.range positions_x.length).filter (fun j =>
    decide (j ≠ i) &&
    decide (wrapped_distance_sq (positions_x.getD i 0) (positions_y.getD i 0)
      (positions_x.getD j 0) (positions_y.getD j 0) world_w world_h ≤ rov_sq))

/-! ## Flocking kernel (real embedding of the body of `update_all_boids`) -/

/-- One agent's row of the structure of arrays. -/
structure Boid where
  px : ℝ
  py : ℝ
  vx : ℝ
  vy : ℝ
  size : ℝ

/-- Shared tunable parameters of the kernel (src/boid.py lines 311-319). -/
structure Params where
  max_velocity : ℝ
  min_velocity : ℝ
  range_of_view : ℝ
  strength : ℝ
  repulsion_factor : ℝ
  random_factor : ℝ
  slow_factor : ℝ
  confusion_factor : ℝ
  distance_factor : ℝ

/-- Default parameter values from `BoidSystem.__init__`. -/
noncomputable def defaultParams : Params :=
  ⟨3 / 2, 1 / 2, 3, 15 / 100, 3 / 100, 25 / 100, 1, 20 / 100, 5 / 100⟩

/-- The visible neighbors of `b`: squared wrapped distance at most
`range_of_view ** 2` (src/boid.py lines 142-148).  The kernel only ever
reads the agents the 3x3 cell scan delivers; this list stands for the
agents delivered by that scan. -/
noncomputable def visibleNeighbors (range_of_view world_w world_h : ℝ)
    (b : Boid) (others : List Boid) : List Boid :=
  others.filter (fun j =>
    decide (wrapped_distance_sq b.px b.py j.px j.py world_w world_h ≤
      range_of_view * range_of_view))

/-- Separation impulse of one visible neighbor (src/boid.py lines
171-188): only when the squared wrapped distance is below the squared
collision distance AND strictly positive, the wrapped offset from the
neighbor to self is normalized (the one square root of the accumulation)
and scaled by `repulsion_factor`; otherwise the pair contributes nothing. -/
noncomputable def sepContrib (repulsion_factor world_w world_h : ℝ)
    (b j : Boid) : ℝ × ℝ :=
  let dist_sq := wrapped_distance_sq b.px b.py j.px j.py world_w world_h
  let collision_dist := b.size + j.size
  if dist_sq < collision_dist * collision_dist ∧ dist_sq > 0 then
    let dist := Real.sqrt dist_sq
    let sep_dx := wrap_offset (b.px - j.px) world_w
    let sep_dy := wrap_offset (b.py - j.py) world_h
    (sep_dx / dist * repulsion_factor, sep_dy / dist * repulsion_factor)
  else (0, 0)

/-- Isolated-agent slow down (src/boid.py lines 212-222): when the speed
exceeds `min_velocity`, subtract `slow_factor` from it, not going below
`min_velocity`, and rescale the velocity. -/
noncomputable def slowWhenAlone (min_velocity slow_factor vx vy : ℝ) :
    ℝ × ℝ :=
  let vel_sq := vx * vx + vy * vy
  if vel_sq > min_velocity * min_velocity then
    let speed := Real.sqrt vel_sq
    let new_speed := speed - slow_factor
    let new_speed := if new_speed < min_velocity then min_velocity
      else new_speed
    let scale := new_speed / speed
    (vx * scale, vy * scale)
  else (vx, vy)

/-- Final speed clamp (src/boid.py lines 224-236): rescale down to
`max_velocity` when above it, else rescale a nonzero speed below
`0.8 * min_velocity` up to that floor. -/
noncomputable def limit_velocity (max_velocity min_velocity vx vy : ℝ) :
    ℝ × ℝ :=
  let vel_sq := vx * vx + vy * vy
  let max_vel_sq := max_velocity * max_velocity
  let min_vel_sq := (min_velocity * (8 / 10)) * (min_velocity * (8 / 10))
  if vel_sq > max_vel_sq then
    let scale := max_velocity / Real.sqrt vel_sq
    (vx * scale, vy * scale)
  else if vel_sq < min_vel_sq ∧ vel_sq > 0 then
    let scale := (min_velocity * (8 / 10)) / Real.sqrt vel_sq
    (vx * scale, vy * scale)
  else (vx, vy)

/-- The per-agent body of `update_all_boids` (src/boid.py lines 104-239),
with `others` standing for the agents delivered by the 3x3 cell scan:
accumulate alignment, cohesion and separation over the visible neighbors
and steer (lines 190-211), or slow down when alone (lines 212-222), then
clamp the speed (lines 224-236).  Returns the new velocity. -/
noncomputable def update_one_boid (p : Params) (world_w world_h : ℝ)
    (b : Boid) (others : List Boid) : ℝ × ℝ :=
  let vis := visibleNeighbors p.range_of_view world_w world_h b others
  let neighbor_count := vis.length
  let steered :=
    if neighbor_count > 0 then
      let confusion := 1 / (1 + (neighbor_count : ℝ) * p.confusion_factor)
      let avg_vx := (vis.map Boid.vx).sum / (neighbor_count : ℝ)
      let avg_vy := (vis.map Boid.vy).sum / (neighbor_count : ℝ)
      let alignment_strength := p.strength * confusion
      let vx1 := b.vx + (avg_vx - b.vx) * alignment_strength
      let vy1 := b.vy + (avg_vy - b.vy) * alignment_strength
      let avg_dx :=
        (vis.map (fun j => wrap_offset (j.px - b.px) world_w)).sum /
          (neighbor_count : ℝ)
      let avg_dy :=
        (vis.map (fun j => wrap_offset (j.py - b.py) world_h)).sum /
          (neighbor_count : ℝ)
      let dist_sq := avg_dx * avg_dx + avg_dy * avg_dy
      let distance_attenuation := 1 / (1 + dist_sq * p.distance_factor)
      let cohesion_strength :=
        p.strength * (5 / 10) * distance_attenuation * confusion
      let vx2 := vx1 + avg_dx * cohesion_strength
      let vy2 := vy1 + avg_dy * cohesion_strength
      let sep := vis.map (sepContrib p.repulsion_factor world_w world_h b)
      (vx2 + (sep.map Prod.fst).sum, vy2 + (sep.map Prod.snd).sum)
    else
      slowWhenAlone p.min_velocity p.slow_factor b.vx b.vy
  limit_velocity p.max_velocity p.min_velocity steered.1 steered.2

/-- One tick of `BoidSystem.update` (src/boid.py lines 360-411) for one
agent: kernel velocity, then the random perturbation
`(rand - 0.5) * random_factor` per axis with the draws `rand_x, rand_y`
passed in explicitly, then integration under the configured boundary
policy. -/
noncomputable def tick_boid (p : Params)
    (world_w world_h grid_x1 grid_y1 grid_x2 grid_y2 : ℝ)
    (wrap_mode : Bool) (b : Boid) (others : List Boid)
    (rand_x rand_y : ℝ) : Boid :=
  let nv := update_one_boid p world_w world_h b others
  let vx := nv.1 + (rand_x - (5 / 10)) * p.random_factor
  let vy := nv.2 + (rand_y - (5 / 10)) * p.random_factor
  if wrap_mode then
    ⟨move_and_wrap_axis b.px vx grid_x1 grid_x2,
      move_and_wrap_axis b.py vy grid_y1 grid_y2, vx, vy, b.size⟩
  else
    let bx := move_and_bounce_axis b.px vx grid_x1 grid_x2
    let by' := move_and_bounce_axis b.py vy grid_y1 grid_y2
    ⟨bx.1, by'.1, bx.2, by'.2, b.size⟩

/-- Speed of a velocity vector. -/
noncomputable def speed (vx vy : ℝ) : ℝ := Real.sqrt (vx * vx + vy * vy)

/-! ## BoidSystem bookkeeping (rational embedding) -/

/-- The mutable state of a `BoidSystem` (src/boid.py lines 298-331): the
structure-of-arrays buffers, the population bookkeeping and the shared
tunable parameters.  NumPy arrays are lists of fixed length `max_count`. -/
structure BoidSystemState where
  max_count : ℕ
  count : ℕ
  positions_x : List ℚ
  positions_y : List ℚ
  velocities_x : List ℚ
  velocities_y : List ℚ
  sizes : List ℚ
  max_velocity : ℚ
  min_velocity : ℚ
  range_of_view : ℚ
  strength : ℚ
  repulsion_factor : ℚ
  random_factor : ℚ
  slow_factor : ℚ
  confusion_factor : ℚ
  distance_factor : ℚ
  default_size : ℚ
  wrap_mode : Bool
  cell_size : ℚ
  num_cells_x : ℕ
  num_cells_y : ℕ
  deriving DecidableEq

/-- Grid parameter recomputation `_update_grid_params` (src/boid.py lines
326-331): cell size is `max(range_of_view, 1.0)` and the grid dimensions
are the ceilings of world extent over cell size, at least 1. -/
def update_grid_params (s : BoidSystemState) : BoidSystemState :=
  let cs := max s.range_of_view 1
  { s with cell_size := cs,
           num_cells_x := max 1 ⌈WORLD_WIDTH / cs⌉.toNat,
           num_cells_y := max 1 ⌈WORLD_HEIGHT / cs⌉.toNat }

/-- Initial state of `BoidSystem.__init__` (src/boid.py lines 298-324):
5000 slots of zeros, zero active count, default parameters, then the grid
parameter computation. -/
def init_boid_system : BoidSystemState :=
  update_grid_params
    { max_count := 5000
      count := 0
      positions_x := List.replicate 5000 0
      positions_y := List.replicate 5000 0
      velocities_x := List.replicate 5000 0
      velocities_y := List.replicate 5000 0
      sizes := List.replicate 5000 0
      max_velocity := 3 / 2
      min_velocity := 1 / 2
      range_of_view := 3
      strength := 15 / 100
      repulsion_factor := 3 / 100
      random_factor := 25 / 100
      slow_factor := 1
      confusion_factor := 20 / 100
      distance_factor := 5 / 100
      default_size := 7
      wrap_mode := true
      cell_size := 0
      num_cells_x := 0
      num_cells_y := 0 }

/-- NumPy slice assignment `arr[start:start+len(vals)] = vals` on a
fixed-length buffer. -/
def writeSlice (arr : List ℚ) (start : ℕ) (vals : List ℚ) : List ℚ :=
  arr.take start ++ vals ++ arr.drop (start + vals.length)

/-- The operation `BoidSystem.add_boids` (src/boid.py lines 333-346):
clamp the request to the remaining capacity, fill the next free slots
with the supplied random draws and the default size, bump the count.
The second component is the Python return value: the function body has no
return statement, so it is always `none` (Python `None`). -/
def add_boids (s : BoidSystemState) (n : ℕ)
    (rand_px rand_py rand_vx rand_vy : List ℚ) :
    BoidSystemState × Option ℕ :=
  let space := s.max_count - s.count
  let to_add := min n space
  (if to_add > 0 then
    let start := s.count
    { s with
      positions_x := writeSlice s.positions_x start (rand_px.take to_add)
      positions_y := writeSlice s.positions_y start (rand_py.take to_add)
      velocities_x := writeSlice s.velocities_x start (rand_vx.take to_add)
      velocities_y := writeSlice s.velocities_y start (rand_vy.take to_add)
      sizes := writeSlice s.sizes start (List.replicate to_add s.default_size)
      count := s.count + to_add }
  else s, none)

/-- The attribute names a `BoidSystem` instance owns after `__init__`,
the names for which Python's `hasattr(self, param)` is true. -/
def boidSystemAttrs : List String :=
  [ "max_count", "positions_x", "positions_y", "velocities_x",
    "velocities_y", "sizes", "count", "max_velocity", "min_velocity",
    "range_of_view", "strength", "repulsion_factor", "random_factor",
    "slow_factor", "confusion_factor", "distance_factor", "default_size",
    "wrap_mode", "cell_size", "num_cells_x", "num_cells_y" ]

/-- Python `hasattr(self, param)` for a `BoidSystem` instance. -/
def hasattrBoidSystem (param : String) : Bool :=
  boidSystemAttrs.contains param

/-- Python `setattr(self, param, value)` for a float value: overwrite the
named float-valued attribute.  (Writing a float to one of the non-float
attributes - the arrays, the counters, `wrap_mode` - is expressible in
Python but outside this numeric embedding; such a write is modelled as
hitting no modelled field, and no claim under verification turns on it.) -/
def setattrBoidSystem (s : BoidSystemState) (param : String) (value : ℚ) :
    BoidSystemState :=
  if param = "max_velocity" then { s with max_velocity := value }
  else if param = "min_velocity" then { s with min_velocity := value }
  else if param = "range_of_view" then { s with range_of_view := value }
  else if param = "strength" then { s with strength := value }
  else if param = "repulsion_factor" then { s with repulsion_factor := value }
  else if param = "random_factor" then { s with random_factor := value }
  else if param = "slow_factor" then { s with slow_factor := value }
  else if param = "confusion_factor" then { s with confusion_factor := value }
  else if param = "distance_factor" then { s with distance_factor := value }
  else if param = "default_size" then { s with default_size := value }
  else if param = "cell_size" then { s with cell_size := value }
  else s

/-- The operation `BoidSystem.update_param` (src/boid.py lines 427-436):
if the name is an existing attribute, write the value unconditionally,
then recompute the grid parameters when the name is `range_of_view` and
restamp the active sizes when it is `default_size`; otherwise do nothing.
The second component is the Python return value: always `none` (the
method has no return statement), so nothing is ever reported. -/
def update_param (s : BoidSystemState) (param : String) (value : ℚ) :
    BoidSystemState × Option String :=
  if hasattrBoidSystem param then
    let s1 := setattrBoidSystem s param value
    let s2 := if param = "range_of_view" then update_grid_params s1 else s1
    let s3 := if param = "default_size" then
        { s2 with sizes := writeSlice s2.sizes 0 (List.replicate s2.count value) }
      else s2
    (s3, none)
  else (s, none)

/-! ## Helper lemmas -/

/-- The wrap-mode axis update always lands inside the bounds. -/
theorem move_and_wrap_axis_mem {α : Type} [LinearOrderedField α]
    (p v hi lo : α) (hlh : lo ≤ hi) :
    lo ≤ move_and_wrap_axis p v hi lo ∧ move_and_wrap_axis p v hi lo ≤ hi := by
  simp only [move_and_wrap_axis]
  split_ifs <;> constructor <;> linarith

/-- The bounce-mode axis update always lands inside the bounds. -/
theorem move_and_bounce_axis_mem {α : Type} [LinearOrderedField α]
    (p v hi lo : α) (hlh : lo ≤ hi) :
    lo ≤ (move_and_bounce_axis p v hi lo).1 ∧
      (move_and_bounce_axis p v hi lo).1 ≤ hi := by
  simp only [move_and_bounce_axis]
  split_ifs <;> constructor <;> simp <;> linarith

/-- One axis of the wrapped distance: the folded magnitude squared is at
most the square of half the extent, provided the raw magnitude does not
exceed the extent. -/
theorem wrap1d_sq_le {α : Type} [LinearOrderedField α] {d w : α}
    (h0 : 0 ≤ d) (hw : d ≤ w) :
    (if d > w * (5 / 10) then w - d else d) *
      (if d > w * (5 / 10) then w - d else d) ≤ (w / 2) ^ 2 := by
  split_ifs with h1 <;> nlinarith

/-! ## Claims -/

/-- Claim C1 (code bug).  With `range_of_view = 60` the system computes
`cell_size = 60` and a 4x4 grid.  Place agent 0 at (79, 0) (cell column
2) and agent 1 at (-100, 0) (cell column 0).  Their wrapped distance is
21, well inside the range of view, so the brute-force scan reports agent
1 as a neighbor of agent 0; but the 3x3 cell scan around column 2 visits
only columns 1, 2, 3 and reports nothing.  The sets differ because the
last grid column spans only 20 world units (200 is not a multiple of 60),
so cells are not wrapped-adjacent across the seam, defeating the claimed
guarantee. -/
theorem spatial_hash_misses_wrapped_neighbor :
    (update_grid_params { init_boid_system with range_of_view := 60 }).cell_size = 60 ∧
    (update_grid_params { init_boid_system with range_of_view := 60 }).num_cells_x = 4 ∧
    (update_grid_params { init_boid_system with range_of_view := 60 }).num_cells_y = 4 ∧
    bruteNeighbors [79, -100] [0, 0] (60 * 60) 200 200 0 = [1] ∧
    scanNeighbors [79, -100] [0, 0]
      (build_spatial_hash [79, -100] [0, 0] 60 (-100) (-100) 4 4) 4 4
      (60 * 60) 200 200 0 = [] := by
  refine ⟨?_, ?_, ?_, ?_, ?_⟩
  · norm_num [update_grid_params, init_boid_system]
  · norm_num [update_grid_params, init_boid_system, WORLD_WIDTH,
      show (⌈(10 : ℚ) / 3⌉ : ℤ) = 4 by rw [Int.ceil_eq_iff] ; norm_num,
      show Int.toNat 4 = 4 from rfl, show ((1 : ℕ) ⊔ 4) = 4 from rfl]
  · norm_num [update_grid_params, init_boid_system, WORLD_HEIGHT,
      show (⌈(10 : ℚ) / 3⌉ : ℤ) = 4 by rw [Int.ceil_eq_iff] ; norm_num,
      show Int.toNat 4 = 4 from rfl, show ((1 : ℕ) ⊔ 4) = 4 from rfl]
  · norm_num [bruteNeighbors, wrapped_distance_sq, List.range_succ,
      List.filter]
  · norm_num [scanNeighbors, build_spatial_hash, cellCoord,
      wrapped_distance_sq, pyRange, List.range_succ, listSet,
      List.replicate, List.scanl, List.filterMap,
      show Int.toNat 0 = 0 from rfl, show Int.toNat 1 = 1 from rfl,
      show Int.toNat 2 = 2 from rfl, show Int.toNat 3 = 3 from rfl]

/-- Claim C7, counterexample to the unrestricted bound: for coordinates
farther apart than the world extent (only possible outside the world),
the folded axis difference is not a magnitude and its square exceeds the
half-diagonal bound. -/
theorem wrapped_distance_bound_fails_far_input :
    ¬ (wrapped_distance_sq (0 : ℚ) 0 400 0 200 200 ≤
        (200 / 2) ^ 2 + (200 / 2) ^ 2) := by
  norm_num [wrapped_distance_sq]

/-- Claim C7 as amended: `wrapped_distance_sq` is symmetric for all
coordinate pairs, and for coordinate pairs whose per-axis separation is
at most the world extent (in particular for all in-world positions) the
squared wrapped distance is at most `(w/2)^2 + (h/2)^2`, the squared half
diagonal. -/
theorem wrapped_distance_symm_and_bounded {α : Type} [LinearOrderedField α]
    (x1 y1 x2 y2 w h : α) :
    wrapped_distance_sq x1 y1 x2 y2 w h =
      wrapped_distance_sq x2 y2 x1 y1 w h ∧
    (|x1 - x2| ≤ w → |y1 - y2| ≤ h →
      wrapped_distance_sq x1 y1 x2 y2 w h ≤ (w / 2) ^ 2 + (h / 2) ^ 2) := by
  constructor
  · simp only [wrapped_distance_sq]
    rw [abs_sub_comm x1 x2, abs_sub_comm y1 y2]
  · intro hx hy
    simp only [wrapped_distance_sq]
    exact add_le_add (wrap1d_sq_le (abs_nonneg _) hx)
      (wrap1d_sq_le (abs_nonneg _) hy)

/-- Witness for C7 at a concrete in-world pair across the seam. -/
theorem wrapped_distance_symm_and_bounded_witness :
    wrapped_distance_sq (79 : ℚ) 0 (-100) 3 200 200 =
      wrapped_distance_sq (-100 : ℚ) 3 79 0 200 200 ∧
    wrapped_distance_sq (79 : ℚ) 0 (-100) 3 200 200 ≤
      (200 / 2) ^ 2 + (200 / 2) ^ 2 :=
  ⟨(wrapped_distance_symm_and_bounded 79 0 (-100) 3 200 200).1,
   (wrapped_distance_symm_and_bounded 79 0 (-100) 3 200 200).2
     (by norm_num) (by norm_num)⟩

/-- Claim C9: the boundary policy after integration.  In wrap mode a
coordinate beyond the upper bound is set to the lower bound and one below
the lower bound to the upper bound (an agent at the upper bound with
positive velocity lands at the lower bound); in bounce mode a crossed
bound clamps the coordinate and negates that velocity component.  The
last two conjuncts locate the per-axis updates inside the tick: each
position axis is handled independently by its own axis function, and in
wrap mode the velocity is exactly the perturbed kernel velocity,
untouched by the boundary. -/
theorem boundary_policy_per_axis (p v hi lo : ℝ) (hlh : lo ≤ hi) :
    (p + v > hi → move_and_wrap_axis p v hi lo = lo) ∧
    (p + v < lo → move_and_wrap_axis p v hi lo = hi) ∧
    (p + v > hi → move_and_bounce_axis p v hi lo = (hi, -v)) ∧
    (p + v < lo → move_and_bounce_axis p v hi lo = (lo, -v)) ∧
    (v > 0 → move_and_wrap_axis hi v hi lo = lo) ∧
    (v > 0 → move_and_bounce_axis hi v hi lo = (hi, -v)) ∧
    (∀ (pa : Params) (w h gx1 gy1 gx2 gy2 : ℝ) (b : Boid)
        (others : List Boid) (rx ry : ℝ),
      (tick_boid pa w h gx1 gy1 gx2 gy2 true b others rx ry).px =
        move_and_wrap_axis b.px
          (tick_boid pa w h gx1 gy1 gx2 gy2 true b others rx ry).vx gx1 gx2 ∧
      (tick_boid pa w h gx1 gy1 gx2 gy2 true b others rx ry).py =
        move_and_wrap_axis b.py
          (tick_boid pa w h gx1 gy1 gx2 gy2 true b others rx ry).vy gy1 gy2 ∧
      (tick_boid pa w h gx1 gy1 gx2 gy2 true b others rx ry).vx =
        (update_one_boid pa w h b others).1 +
          (rx - 5 / 10) * pa.random_factor ∧
      (tick_boid pa w h gx1 gy1 gx2 gy2 false b others rx ry).px =
        (move_and_bounce_axis b.px
          ((update_one_boid pa w h b others).1 +
            (rx - 5 / 10) * pa.random_factor) gx1 gx2).1 ∧
      (tick_boid pa w h gx1 gy1 gx2 gy2 false b others rx ry).vx =
        (move_and_bounce_axis b.px
          ((update_one_boid pa w h b others).1 +
            (rx - 5 / 10) * pa.random_factor) gx1 gx2).2) := by
  refine ⟨?_, ?_, ?_, ?_, ?_, ?_, ?_⟩
  · intro hq
    simp only [move_and_wrap_axis]
    rw [if_pos hq]
  · intro hq
    simp only [move_and_wrap_axis]
    rw [if_neg (by linarith), if_pos hq]
  · intro hq
    simp only [move_and_bounce_axis]
    rw [if_pos hq]
  · intro hq
    simp only [move_and_bounce_axis]
    rw [if_neg (by linarith), if_pos hq]
  · intro hv
    simp only [move_and_wrap_axis]
    rw [if_pos (by linarith)]
  · intro hv
    simp only [move_and_bounce_axis]
    rw [if_pos (by linarith)]
  · intro pa w h gx1 gy1 gx2 gy2 b others rx ry
    refine ⟨?_, ?_, ?_, ?_, ?_⟩ <;> simp [tick_boid]

/-- Claim C10: after one tick, under either boundary mode and for every
pre-tick state, perturbation draw and velocity, both position coordinates
of the updated agent lie in [-100, 100]: a coordinate outside the bounds
is teleported (wrap) or clamped (bounce) to a bound, and an inside
coordinate stays inside. -/
theorem tick_positions_in_bounds (pa : Params) (w h : ℝ) (mode : Bool)
    (b : Boid) (others : List Boid) (rx ry : ℝ) :
    -100 ≤ (tick_boid pa w h 100 100 (-100) (-100) mode b others rx ry).px ∧
    (tick_boid pa w h 100 100 (-100) (-100) mode b others rx ry).px ≤ 100 ∧
    -100 ≤ (tick_boid pa w h 100 100 (-100) (-100) mode b others rx ry).py ∧
    (tick_boid pa w h 100 100 (-100) (-100) mode b others rx ry).py ≤ 100 := by
  have h100 : ((-100 : ℝ)) ≤ 100 := by norm_num
  cases mode <;> simp only [tick_boid, Bool.false_eq_true, if_true, if_false]
  · exact ⟨(move_and_bounce_axis_mem _ _ _ _ h100).1,
      (move_and_bounce_axis_mem _ _ _ _ h100).2,
      (move_and_bounce_axis_mem _ _ _ _ h100).1,
      (move_and_bounce_axis_mem _ _ _ _ h100).2⟩
  · exact ⟨(move_and_wrap_axis_mem _ _ _ _ h100).1,
      (move_and_wrap_axis_mem _ _ _ _ h100).2,
      (move_and_wrap_axis_mem _ _ _ _ h100).1,
      (move_and_wrap_axis_mem _ _ _ _ h100).2⟩

/-- Claim C8: when two agents are coincident under the wrapped metric
(squared wrapped distance zero), the separation guard
`dist_sq < collision_dist_sq and dist_sq > 0` is false, so the pair
contributes nothing to the separation accumulator and the normalizing
division by the distance is never performed on a zero distance. -/
theorem coincident_separation_skipped (repf w h : ℝ) (b j : Boid)
    (hc : wrapped_distance_sq b.px b.py j.px j.py w h = 0) :
    sepContrib repf w h b j = (0, 0) := by
  simp only [sepContrib, hc]
  norm_num

/-- Witness for C8: two agents at the same position. -/
theorem coincident_separation_skipped_witness :
    wrapped_distance_sq (Boid.mk 5 5 1 0 7).px (Boid.mk 5 5 1 0 7).py
      (Boid.mk 5 5 0 1 7).px (Boid.mk 5 5 0 1 7).py 200 200 = 0 ∧
    sepContrib (3 / 100) 200 200 (Boid.mk 5 5 1 0 7) (Boid.mk 5 5 0 1 7) =
      (0, 0) := by
  have hc : wrapped_distance_sq (Boid.mk 5 5 1 0 7).px (Boid.mk 5 5 1 0 7).py
      (Boid.mk 5 5 0 1 7).px (Boid.mk 5 5 0 1 7).py 200 200 = 0 := by
    norm_num [wrapped_distance_sq]
  exact ⟨hc, coincident_separation_skipped (3 / 100) 200 200 _ _ hc⟩

/-- Witness for C9: an agent exactly at the upper bound with velocity 1
wraps to the lower bound, or bounces with the velocity negated. -/
theorem boundary_policy_per_axis_witness :
    move_and_wrap_axis (100 : ℝ) 1 100 (-100) = -100 ∧
    move_and_bounce_axis (100 : ℝ) 1 100 (-100) = (100, -1) :=
  ⟨(boundary_policy_per_axis 100 1 100 (-100) (by norm_num)).2.2.2.2.1
      (by norm_num),
   (boundary_policy_per_axis 100 1 100 (-100) (by norm_num)).2.2.2.2.2.1
      (by norm_num)⟩

/-- Claim C5, counterexample to the reporting part: `add_boids` has no
return statement, so it returns Python `None` (here `none`), never the
number of agents actually added. -/
theorem add_boids_returns_none :
    (add_boids init_boid_system 3 [1, 2, 3] [1, 2, 3] [0, 0, 0]
        [0, 0, 0]).2 ≠ some 3 := by
  simp [add_boids]

/-- Claim C5 as amended: for every store state and request `n`,
`add_boids` increases `count` by exactly `min n (max_count - count)` and
raises nothing; at capacity it adds zero; but it reports nothing to the
caller (it returns `None`). -/
theorem add_boids_count_increase (s : BoidSystemState) (n : ℕ)
    (rpx rpy rvx rvy : List ℚ) :
    (add_boids s n rpx rpy rvx rvy).1.count =
      s.count + min n (s.max_count - s.count) ∧
    (s.count = s.max_count → (add_boids s n rpx rpy rvx rvy).1.count = s.count) ∧
    (add_boids s n rpx rpy rvx rvy).2 = none := by
  refine ⟨?_, ?_, rfl⟩
  · simp only [add_boids]
    split_ifs with h
    · rfl
    · show s.count = s.count + min n (s.max_count - s.count)
      omega
  · intro hc
    simp only [add_boids]
    split_ifs with h
    · show s.count + min n (s.max_count - s.count) = s.count
      omega
    · rfl

/-- Witness for C5 at a store already at capacity: adding 3 changes
nothing. -/
theorem add_boids_count_increase_witness :
    ({ init_boid_system with count := 5000 } : BoidSystemState).count =
      ({ init_boid_system with count := 5000 } : BoidSystemState).max_count ∧
    (add_boids { init_boid_system with count := 5000 } 3 [] [] [] []).1.count =
      ({ init_boid_system with count := 5000 } : BoidSystemState).count := by
  have hfull : ({ init_boid_system with count := 5000 } : BoidSystemState).count =
      ({ init_boid_system with count := 5000 } : BoidSystemState).max_count := rfl
  exact ⟨hfull,
    (add_boids_count_increase { init_boid_system with count := 5000 } 3
      [] [] [] []).2.1 hfull⟩

/-- Writing `range_of_view` through `setattrBoidSystem` hits exactly the
`range_of_view` field. -/
theorem setattr_rov (s : BoidSystemState) (value : ℚ) :
    setattrBoidSystem s (r"range_of_view") value =
      { s with range_of_view := value } := by
  simp only [setattrBoidSystem]
  rw [if_neg (by decide), if_neg (by decide), if_pos (by trivial)]

/-- Evaluation of `update_param` at the name `range_of_view`: the write
is performed and the grid parameters are recomputed; nothing is
reported. -/
theorem update_param_rov (s : BoidSystemState) (value : ℚ) :
    update_param s (r"range_of_view") value =
      (update_grid_params { s with range_of_view := value }, none) := by
  have hb : hasattrBoidSystem (r"range_of_view") = true := by decide
  simp only [update_param, hb, if_true,
    show ((r"range_of_view" : String) = (r"range_of_view")) = True by simp,
    show ((r"range_of_view" : String) = (r"default_size")) = False by simp,
    if_false]
  rw [setattr_rov]

/-- Claim C4, counterexample to the validation part: `update_param` does
no value validation; a negative `range_of_view` is accepted, the state
changes (and the dependent grid recomputation runs on the bad value,
clamping only the cell size), and nothing is reported to the caller. -/
theorem negative_range_of_view_accepted :
    (update_param init_boid_system (r"range_of_view") (-5)).1.range_of_view
        = -5 ∧
    (update_param init_boid_system (r"range_of_view") (-5)).1.range_of_view
        ≠ init_boid_system.range_of_view ∧
    (update_param init_boid_system (r"range_of_view") (-5)).2 = none := by
  refine ⟨?_, ?_, ?_⟩
  · rw [update_param_rov]
    rfl
  · rw [update_param_rov]
    show (-5 : ℚ) ≠ 3
    norm_num
  · rw [update_param_rov]

/-- Claim C4 as amended: a name that is not an attribute of the system is
a silent no-op (state unchanged, nothing reported); a name that is an
existing attribute is written unconditionally with no range validation -
in particular any `range_of_view` value, negative ones included, is
accepted and triggers the grid recomputation - and the call never reports
anything. -/
theorem update_param_unknown_noop_known_unvalidated :
    (∀ (s : BoidSystemState) (param : String) (value : ℚ),
      hasattrBoidSystem param = false → update_param s param value = (s, none)) ∧
    (∀ (s : BoidSystemState) (value : ℚ),
      (update_param s (r"range_of_view") value).1.range_of_view = value ∧
      (update_param s (r"range_of_view") value).1.cell_size = max value 1 ∧
      (update_param s (r"range_of_view") value).2 = none) := by
  constructor
  · intro s param value hfalse
    simp only [update_param, hfalse, Bool.false_eq_true, if_false]
  · intro s value
    rw [update_param_rov]
    exact ⟨rfl, rfl, rfl⟩

/-- Witness for C4: the unknown name case at a concrete bogus name, and
the unvalidated write at a concrete negative value. -/
theorem update_param_unknown_noop_known_unvalidated_witness :
    hasattrBoidSystem (r"no_such_attribute") = false ∧
    update_param init_boid_system (r"no_such_attribute") 7 =
      (init_boid_system, none) ∧
    (update_param init_boid_system (r"range_of_view") (-2)).1.cell_size =
      max (-2) 1 := by
  have hf : hasattrBoidSystem (r"no_such_attribute") = false := by decide
  exact ⟨hf,
    update_param_unknown_noop_known_unvalidated.1 init_boid_system
      (r"no_such_attribute") 7 hf,
    (update_param_unknown_noop_known_unvalidated.2 init_boid_system (-2)).2.1⟩

/-! ## Kernel speed claims (real embedding) -/

/-- Scaling a vector by c over its own norm yields squared norm c * c. -/
theorem scaled_speed (vx vy c : ℝ) (hvs : 0 < vx * vx + vy * vy) :
    vx * (c / Real.sqrt (vx * vx + vy * vy)) *
        (vx * (c / Real.sqrt (vx * vx + vy * vy))) +
      vy * (c / Real.sqrt (vx * vx + vy * vy)) *
        (vy * (c / Real.sqrt (vx * vx + vy * vy))) = c * c := by
  have h1 : Real.sqrt (vx * vx + vy * vy) * Real.sqrt (vx * vx + vy * vy) =
      vx * vx + vy * vy := Real.mul_self_sqrt hvs.le
  have h0 : Real.sqrt (vx * vx + vy * vy) ≠ 0 :=
    (Real.sqrt_pos.mpr hvs).ne'
  field_simp
  nlinarith [h1]

/-- Rescaling a nonzero vector to target speed c yields speed c. -/
theorem speed_scale (vx vy c : ℝ) (hvs : 0 < vx * vx + vy * vy)
    (hc : 0 ≤ c) :
    speed (vx * (c / Real.sqrt (vx * vx + vy * vy)))
      (vy * (c / Real.sqrt (vx * vx + vy * vy))) = c := by
  unfold speed
  rw [scaled_speed vx vy c hvs, Real.sqrt_mul_self hc]

/-- Speed of a vector scaled by a nonnegative factor. -/
theorem speed_mul (vx vy k : ℝ) (hk : 0 ≤ k) :
    speed (vx * k) (vy * k) = speed vx vy * k := by
  unfold speed
  rw [show (vx * k) * (vx * k) + (vy * k) * (vy * k) =
      (vx * vx + vy * vy) * (k * k) by ring,
    Real.sqrt_mul (add_nonneg (mul_self_nonneg vx) (mul_self_nonneg vy))
      (k * k), Real.sqrt_mul_self hk]

/-- The final clamp never outputs a speed above the maximum. -/
theorem limit_velocity_speed_le (maxV minV vx vy : ℝ)
    (hmin : 0 ≤ minV) (hma : minV * (8 / 10) ≤ maxV) :
    speed (limit_velocity maxV minV vx vy).1
      (limit_velocity maxV minV vx vy).2 ≤ maxV := by
  have hmax0 : 0 ≤ maxV := le_trans (by nlinarith) hma
  simp only [limit_velocity]
  split_ifs with h1 h2
  · have hvs : 0 < vx * vx + vy * vy :=
      lt_of_le_of_lt (mul_self_nonneg maxV) h1
    dsimp only
    rw [speed_scale vx vy maxV hvs hmax0]
  · dsimp only
    rw [speed_scale vx vy (minV * (8 / 10)) h2.2 (by nlinarith)]
    exact hma
  · dsimp only
    unfold speed
    calc Real.sqrt (vx * vx + vy * vy) ≤ Real.sqrt (maxV * maxV) :=
        Real.sqrt_le_sqrt (not_lt.mp h1)
    _ = maxV := Real.sqrt_mul_self hmax0

/-- With no visible neighbor the kernel reduces to the slow-down step
followed by the clamp. -/
theorem update_one_boid_no_neighbors (p : Params) (w h : ℝ) (b : Boid)
    (others : List Boid)
    (hvis : visibleNeighbors p.range_of_view w h b others = []) :
    update_one_boid p w h b others =
      limit_velocity p.max_velocity p.min_velocity
        (slowWhenAlone p.min_velocity p.slow_factor b.vx b.vy).1
        (slowWhenAlone p.min_velocity p.slow_factor b.vx b.vy).2 := by
  simp only [update_one_boid, hvis]
  simp

/-- Square roots of concrete perfect squares. -/
theorem sqrt_eval (a b : ℝ) (hb : 0 ≤ b) (h : b * b = a) :
    Real.sqrt a = b := by
  rw [← h, Real.sqrt_mul_self hb]

/-- Kernel evaluation at a concrete isolated agent with speed 5/2 under
default parameters: the slow-down brings the speed to 3/2 and the clamp
leaves it. -/
theorem kernel_eval_isolated :
    update_one_boid defaultParams 200 200 (Boid.mk 0 0 (5/2) 0 7) [] =
      (3/2, 0) := by
  rw [update_one_boid_no_neighbors defaultParams 200 200 _ [] rfl]
  simp only [slowWhenAlone, defaultParams, limit_velocity]
  norm_num [sqrt_eval 25 5 (by norm_num) (by norm_num),
    sqrt_eval 4 2 (by norm_num) (by norm_num),
    sqrt_eval 9 3 (by norm_num) (by norm_num)]

/-- The velocity produced by a wrap-mode tick is the kernel velocity plus
the perturbation; the boundary pass leaves it untouched. -/
theorem tick_boid_wrap_v (p : Params) (w h gx1 gy1 gx2 gy2 : ℝ)
    (b : Boid) (others : List Boid) (rx ry : ℝ) :
    (tick_boid p w h gx1 gy1 gx2 gy2 true b others rx ry).vx =
      (update_one_boid p w h b others).1 + (rx - 5 / 10) * p.random_factor ∧
    (tick_boid p w h gx1 gy1 gx2 gy2 true b others rx ry).vy =
      (update_one_boid p w h b others).2 + (ry - 5 / 10) * p.random_factor := by
  constructor <;> simp [tick_boid]

/-- Claim C2 as amended: every agent's speed immediately after the
kernel (its final clamp, before the random perturbation and integration)
is at most `max_velocity`, whenever `0 ≤ min_velocity` and
`0.8 * min_velocity ≤ max_velocity`. -/
theorem kernel_speed_le_max (p : Params) (w h : ℝ) (b : Boid)
    (others : List Boid) (hmin : 0 ≤ p.min_velocity)
    (hma : p.min_velocity * (8 / 10) ≤ p.max_velocity) :
    speed (update_one_boid p w h b others).1
      (update_one_boid p w h b others).2 ≤ p.max_velocity := by
  simp only [update_one_boid]
  exact limit_velocity_speed_le _ _ _ _ hmin hma

/-- Witness for C2 at the default parameters. -/
theorem kernel_speed_le_max_witness :
    (0 : ℝ) ≤ defaultParams.min_velocity ∧
    defaultParams.min_velocity * (8 / 10) ≤ defaultParams.max_velocity ∧
    speed (update_one_boid defaultParams 200 200
        (Boid.mk 0 0 (5/2) 0 7) []).1
      (update_one_boid defaultParams 200 200 (Boid.mk 0 0 (5/2) 0 7) []).2 ≤
      defaultParams.max_velocity :=
  ⟨by norm_num [defaultParams], by norm_num [defaultParams],
   kernel_speed_le_max defaultParams 200 200 _ []
     (by norm_num [defaultParams]) (by norm_num [defaultParams])⟩

/-- Claim C2, counterexample to the claim as stated: the random
perturbation is added after the clamp, so the post-integration speed can
exceed `max_velocity`.  With default parameters, an isolated agent with
velocity (5/2, 0) leaves the kernel at the clamped velocity (3/2, 0);
the draw rand_x = 9/10 adds (9/10 - 1/2) * 1/4 = 1/10, and the wrap-mode
integration leaves the velocity untouched, so the speed after integration
is 8/5 > 3/2 = max_velocity. -/
theorem tick_speed_exceeds_max :
    speed (tick_boid defaultParams 200 200 100 100 (-100) (-100) true
        (Boid.mk 0 0 (5/2) 0 7) [] (9/10) (1/2)).vx
      (tick_boid defaultParams 200 200 100 100 (-100) (-100) true
        (Boid.mk 0 0 (5/2) 0 7) [] (9/10) (1/2)).vy >
      defaultParams.max_velocity := by
  have hvx : (tick_boid defaultParams 200 200 100 100 (-100) (-100) true
      (Boid.mk 0 0 (5/2) 0 7) [] (9/10) (1/2)).vx = 8/5 := by
    rw [(tick_boid_wrap_v defaultParams 200 200 100 100 (-100) (-100)
      (Boid.mk 0 0 (5/2) 0 7) [] (9/10) (1/2)).1, kernel_eval_isolated]
    norm_num [defaultParams]
  have hvy : (tick_boid defaultParams 200 200 100 100 (-100) (-100) true
      (Boid.mk 0 0 (5/2) 0 7) [] (9/10) (1/2)).vy = 0 := by
    rw [(tick_boid_wrap_v defaultParams 200 200 100 100 (-100) (-100)
      (Boid.mk 0 0 (5/2) 0 7) [] (9/10) (1/2)).2, kernel_eval_isolated]
    norm_num
  rw [hvx, hvy]
  unfold speed
  norm_num [sqrt_eval 64 8 (by norm_num) (by norm_num),
    sqrt_eval 25 5 (by norm_num) (by norm_num), defaultParams]

/-- Claim C3, counterexample: the lower speed floor is applied to every
agent, neighbors or not.  With default parameters an agent with zero
visible neighbors and velocity (3/10, 0) (speed 0.3, below
0.8 * min_velocity = 0.4 and too slow for the decay branch to act) is
rescaled upward by the clamp to (2/5, 0): an isolated agent IS rescaled
upward, contradicting the claim. -/
theorem isolated_agent_rescaled_upward :
    visibleNeighbors defaultParams.range_of_view 200 200
      (Boid.mk 0 0 (3/10) 0 7) [] = [] ∧
    update_one_boid defaultParams 200 200 (Boid.mk 0 0 (3/10) 0 7) [] =
      (2/5, 0) ∧ ((2/5 : ℝ) > 3/10) := by
  refine ⟨rfl, ?_, by norm_num⟩
  rw [update_one_boid_no_neighbors defaultParams 200 200 _ [] rfl]
  simp only [slowWhenAlone, defaultParams, limit_velocity]
  norm_num [sqrt_eval 9 3 (by norm_num) (by norm_num),
    sqrt_eval 100 10 (by norm_num) (by norm_num)]

/-- Claim C3 as amended: the final lower floor applies to all agents
regardless of neighbor count; in particular an agent with zero visible
neighbors and nonzero speed below `0.8 * min_velocity` is rescaled up to
exactly that floor (the isolated-agent decay branch does not act on such
slow agents, and the unconditional clamp then rescales them upward). -/
theorem speed_floor_applies_to_isolated (p : Params) (w h : ℝ) (b : Boid)
    (others : List Boid)
    (hvis : visibleNeighbors p.range_of_view w h b others = [])
    (hmin : 0 < p.min_velocity)
    (hma : p.min_velocity * (8 / 10) ≤ p.max_velocity)
    (hpos : 0 < b.vx * b.vx + b.vy * b.vy)
    (hlow : b.vx * b.vx + b.vy * b.vy <
      p.min_velocity * (8 / 10) * (p.min_velocity * (8 / 10))) :
    speed (update_one_boid p w h b others).1
      (update_one_boid p w h b others).2 = p.min_velocity * (8 / 10) := by
  rw [update_one_boid_no_neighbors p w h b others hvis]
  have hsl : slowWhenAlone p.min_velocity p.slow_factor b.vx b.vy =
      (b.vx, b.vy) := by
    simp only [slowWhenAlone]
    rw [if_neg]
    push_neg
    nlinarith [hmin.le]
  rw [hsl]
  simp only [limit_velocity]
  rw [if_neg (by push_neg; nlinarith [hmin.le]), if_pos ⟨hlow, hpos⟩]
  exact speed_scale b.vx b.vy (p.min_velocity * (8 / 10)) hpos
    (by nlinarith [hmin.le])

/-- Witness for C3 at the concrete slow isolated agent. -/
theorem speed_floor_applies_to_isolated_witness :
    visibleNeighbors defaultParams.range_of_view 200 200
      (Boid.mk 0 0 (3/10) 0 7) [] = [] ∧
    (0 : ℝ) < (Boid.mk 0 0 (3/10) 0 7).vx * (Boid.mk 0 0 (3/10) 0 7).vx +
      (Boid.mk 0 0 (3/10) 0 7).vy * (Boid.mk 0 0 (3/10) 0 7).vy ∧
    speed (update_one_boid defaultParams 200 200
        (Boid.mk 0 0 (3/10) 0 7) []).1
      (update_one_boid defaultParams 200 200 (Boid.mk 0 0 (3/10) 0 7) []).2 =
      defaultParams.min_velocity * (8 / 10) :=
  ⟨rfl, by norm_num,
   speed_floor_applies_to_isolated defaultParams 200 200 _ [] rfl
     (by norm_num [defaultParams]) (by norm_num [defaultParams])
     (by norm_num) (by norm_num [defaultParams])⟩

/-- Claim C6, counterexample to the claim as stated over a full tick: the
random perturbation changes the direction of an isolated agent.  With
default parameters and draws rand_x = rand_y = 9/10, the agent that
entered the tick with velocity (5/2, 0) leaves it with velocity
(8/5, 1/10), which is no nonnegative multiple of (5/2, 0). -/
theorem tick_changes_isolated_direction :
    ¬ ∃ c : ℝ, 0 ≤ c ∧
      (tick_boid defaultParams 200 200 100 100 (-100) (-100) true
        (Boid.mk 0 0 (5/2) 0 7) [] (9/10) (9/10)).vx = c * (5/2) ∧
      (tick_boid defaultParams 200 200 100 100 (-100) (-100) true
        (Boid.mk 0 0 (5/2) 0 7) [] (9/10) (9/10)).vy = c * 0 := by
  rintro ⟨c, hc, hvx, hvy⟩
  rw [(tick_boid_wrap_v defaultParams 200 200 100 100 (-100) (-100)
    (Boid.mk 0 0 (5/2) 0 7) [] (9/10) (9/10)).2, kernel_eval_isolated] at hvy
  norm_num [defaultParams] at hvy

/-- Claim C6 as amended: for an agent with zero visible neighbors and
speed strictly above `min_velocity`, one wrap-mode tick with the random
draws at their center (rand = 1/2, making the perturbation zero, the
behavior the claim describes) strictly lowers the speed, keeps it at
least `min_velocity`, and leaves the direction of motion unchanged (the
new velocity is a positive multiple of the old). -/
theorem isolated_agent_decays (p : Params) (w h : ℝ) (b : Boid)
    (others : List Boid)
    (hvis : visibleNeighbors p.range_of_view w h b others = [])
    (hmin : 0 < p.min_velocity) (hslow : 0 < p.slow_factor)
    (hmm : p.min_velocity ≤ p.max_velocity)
    (hfast : b.vx * b.vx + b.vy * b.vy >
      p.min_velocity * p.min_velocity) :
    ∃ c : ℝ, 0 < c ∧
      (tick_boid p w h 100 100 (-100) (-100) true b others (5/10)
        (5/10)).vx = c * b.vx ∧
      (tick_boid p w h 100 100 (-100) (-100) true b others (5/10)
        (5/10)).vy = c * b.vy ∧
      p.min_velocity ≤
        speed (tick_boid p w h 100 100 (-100) (-100) true b others (5/10)
            (5/10)).vx
          (tick_boid p w h 100 100 (-100) (-100) true b others (5/10)
            (5/10)).vy ∧
      speed (tick_boid p w h 100 100 (-100) (-100) true b others (5/10)
          (5/10)).vx
        (tick_boid p w h 100 100 (-100) (-100) true b others (5/10)
          (5/10)).vy < speed b.vx b.vy := by
  have htv := tick_boid_wrap_v p w h 100 100 (-100) (-100) b others
    (5/10) (5/10)
  have hz : ((5 : ℝ)/10 - 5/10) * p.random_factor = 0 := by ring
  simp only [hz, add_zero] at htv
  rw [htv.1, htv.2, update_one_boid_no_neighbors p w h b others hvis]
  have hvs0 : 0 < b.vx * b.vx + b.vy * b.vy :=
    lt_of_le_of_lt (by positivity) hfast
  simp only [slowWhenAlone]
  rw [if_pos hfast]
  set s0 := Real.sqrt (b.vx * b.vx + b.vy * b.vy) with hs0def
  have hs0pos : 0 < s0 := Real.sqrt_pos.mpr hvs0
  have hminlt : p.min_velocity < s0 := by
    by_contra hcon
    push_neg at hcon
    have hss : s0 * s0 = b.vx * b.vx + b.vy * b.vy := by
      rw [hs0def]; exact Real.mul_self_sqrt hvs0.le
    nlinarith
  set ns := if s0 - p.slow_factor < p.min_velocity then p.min_velocity
    else s0 - p.slow_factor with hnsdef
  have hnslb : p.min_velocity ≤ ns := by
    rw [hnsdef]; split_ifs with hc
    · exact le_refl _
    · exact le_of_not_lt hc
  have hnslt : ns < s0 := by
    rw [hnsdef]; split_ifs with hc
    · exact hminlt
    · linarith
  have hnspos : 0 < ns := lt_of_lt_of_le hmin hnslb
  have key := scaled_speed b.vx b.vy ns hvs0
  rw [← hs0def] at key
  have hspeed1 : speed (b.vx * (ns / s0)) (b.vy * (ns / s0)) = ns := by
    have hthis := speed_scale b.vx b.vy ns hvs0 hnspos.le
    rwa [← hs0def] at hthis
  have hsb : speed b.vx b.vy = s0 := by rw [hs0def]; rfl
  by_cases hgt : ns * ns > p.max_velocity * p.max_velocity
  · have hmax0 : 0 < p.max_velocity := lt_of_lt_of_le hmin hmm
    have hnm : p.max_velocity < ns := by nlinarith
    have hsp : speed (b.vx * (ns / s0) * (p.max_velocity / ns))
        (b.vy * (ns / s0) * (p.max_velocity / ns)) = p.max_velocity := by
      rw [speed_mul _ _ _ (by positivity), hspeed1]
      field_simp
    refine ⟨(ns / s0) * (p.max_velocity / ns), by positivity, ?_, ?_, ?_, ?_⟩
      <;> simp only [limit_velocity, key] <;>
      rw [if_pos hgt, Real.sqrt_mul_self hnspos.le]
    · dsimp only; ring
    · dsimp only; ring
    · dsimp only; rw [hsp]; exact hmm
    · dsimp only; rw [hsp, hsb]; exact lt_trans hnm hnslt
  · have hfloor : ¬ (ns * ns <
        p.min_velocity * (8 / 10) * (p.min_velocity * (8 / 10)) ∧
        ns * ns > 0) := by
      rintro ⟨hflt, _⟩
      nlinarith [hnslb, hmin.le]
    refine ⟨ns / s0, by positivity, ?_, ?_, ?_, ?_⟩
      <;> simp only [limit_velocity, key] <;>
      rw [if_neg hgt, if_neg hfloor]
    · dsimp only; ring
    · dsimp only; ring
    · dsimp only; rw [hspeed1]; exact hnslb
    · dsimp only; rw [hspeed1, hsb]; exact hnslt

/-- Witness for C6 at the concrete fast isolated agent under the default
parameters. -/
theorem isolated_agent_decays_witness :
    ((Boid.mk 0 0 (5/2) 0 7).vx * (Boid.mk 0 0 (5/2) 0 7).vx +
        (Boid.mk 0 0 (5/2) 0 7).vy * (Boid.mk 0 0 (5/2) 0 7).vy >
      defaultParams.min_velocity * defaultParams.min_velocity) ∧
    ∃ c : ℝ, 0 < c ∧
      (tick_boid defaultParams 200 200 100 100 (-100) (-100) true
        (Boid.mk 0 0 (5/2) 0 7) [] (5/10) (5/10)).vx =
        c * (Boid.mk 0 0 (5/2) 0 7).vx ∧
      (tick_boid defaultParams 200 200 100 100 (-100) (-100) true
        (Boid.mk 0 0 (5/2) 0 7) [] (5/10) (5/10)).vy =
        c * (Boid.mk 0 0 (5/2) 0 7).vy ∧
      defaultParams.min_velocity ≤
        speed (tick_boid defaultParams 200 200 100 100 (-100) (-100) true
            (Boid.mk 0 0 (5/2) 0 7) [] (5/10) (5/10)).vx
          (tick_boid defaultParams 200 200 100 100 (-100) (-100) true
            (Boid.mk 0 0 (5/2) 0 7) [] (5/10) (5/10)).vy ∧
      speed (tick_boid defaultParams 200 200 100 100 (-100) (-100) true
          (Boid.mk 0 0 (5/2) 0 7) [] (5/10) (5/10)).vx
        (tick_boid defaultParams 200 200 100 100 (-100) (-100) true
          (Boid.mk 0 0 (5/2) 0 7) [] (5/10) (5/10)).vy <
        speed (Boid.mk 0 0 (5/2) 0 7).vx (Boid.mk 0 0 (5/2) 0 7).vy :=
  ⟨by norm_num [defaultParams],
   isolated_agent_decays defaultParams 200 200 (Boid.mk 0 0 (5/2) 0 7) []
     rfl (by norm_num [defaultParams]) (by norm_num [defaultParams])
     (by norm_num [defaultParams]) (by norm_num [defaultParams])⟩
